import Mathlib

/-!
Shallow embedding of the UEMCP TCP command server
(`Source/UEMCP/Private/UEMCPTCPServer.cpp`).

The server is a process-wide singleton holding a listening socket handle, an
ordered array of connected client socket handles, and a running flag.  Each
engine frame calls `Tick`, which polls for one pending inbound connection and
then polls every connected socket for data; each drained read is handed to
`HandleCommand`, which deserializes the payload as a JSON object, extracts the
`intent` field and dispatches the single registered intent `spawn_actor`.

Modelling conventions:
* Socket handles are `Nat` identifiers.  The engine socket subsystem, the
  JSON deserializer, class lookup (`FindObject`), the world context and actor
  spawning (`SpawnActor`) are external collaborators; their outcomes are
  supplied as explicit environment records, and the calls the dispatcher makes
  into them are recorded in an explicit trace so claims about "which
  collaborator was invoked" are statements about that trace.
* A raw network read reaches `HandleCommand` as a string that is immediately
  deserialized; the embedding represents each read by the deserializer outcome
  `Option JValue` (`none` = the engine JSON parser failed; deserialization
  into an `FJsonObject` also fails when the document is not an object, which
  the model expresses by treating any non-object `JValue` like a parse
  failure, exactly as lines 197-201 of the source do).
* JSON numbers are modelled as rationals; the engine stores doubles, and no
  claim depends on float rounding, only on values being carried through.
* The engine JSON DOM getters coerce between scalar types:
  `FJsonValueNumber::TryGetString` renders the number, and
  `FJsonValueBoolean::TryGetString` yields "true"/"false";
  `FJsonValueBoolean::TryGetNumber` yields 1/0 and
  `FJsonValueString::TryGetNumber` parses numeric strings.  The model mirrors
  these coercions; the exact decimal rendering of a non-integer number and the
  parsing of fractional numeric strings are immaterial to every claim, so the
  model renders with `toString` on `ℚ` and parses integer strings only.
-/

namespace UEMCP

/-- JSON values as held by the engine JSON DOM after deserialization. -/
inductive JValue : Type
  | jnull : JValue
  | jbool : Bool → JValue
  | jnum : ℚ → JValue
  | jstr : String → JValue
  | jarr : List JValue → JValue
  | jobj : List (String × JValue) → JValue

/-- Field lookup in a JSON object (`FJsonObject::TryGetField`).  The engine
stores fields in a map, so duplicate keys are collapsed at parse time; the
association-list model returns the first binding. -/
def getField (fields : List (String × JValue)) (name : String) : Option JValue :=
  match fields with
  | [] => none
  | (k, v) :: rest => if k = name then some v else getField rest name

/-- Decimal rendering used when a JSON number is read as a string
(`FJsonValueNumber::TryGetString`).  Agrees with the engine on integers; no
claim looks at the rendering of a fractional number. -/
def jsonNumToString (q : ℚ) : String := toString q

/-- Numeric-string parsing used when a JSON string is read as a number
(`FJsonValueString::TryGetNumber`).  Agrees with the engine on integer strings
and on non-numeric strings (failure); no claim exercises fractional strings. -/
def strToNum (s : String) : Option ℚ := (s.toInt?).map fun n => (n : ℚ)

/-- Getter `FJsonValue::TryGetString`: succeeds on strings, numbers and booleans
(the latter two are coerced), fails on null, arrays and objects. -/
def tryGetString : JValue → Option String
  | .jstr s => some s
  | .jnum q => some (jsonNumToString q)
  | .jbool b => some (if b then "true" else "false")
  | _ => none

/-- Getter `FJsonValue::TryGetNumber`: succeeds on numbers, booleans (1/0) and
numeric strings, fails otherwise. -/
def tryGetNumber : JValue → Option ℚ
  | .jnum q => some q
  | .jbool b => some (if b then 1 else 0)
  | .jstr s => strToNum s
  | _ => none

/-- Getter `FJsonValue::AsNumber`: total; logs and yields 0 when the value carries no
number.  This is why the source cannot reject a non-numeric location element:
every element yields some double. -/
def asNumber (v : JValue) : ℚ := (tryGetNumber v).getD 0

/-- Field getter `FJsonObject::TryGetStringField`. -/
def tryGetStringField (fields : List (String × JValue)) (name : String) : Option String :=
  (getField fields name).bind tryGetString

/-- Field getter `FJsonObject::TryGetObjectField`: strict, succeeds only on object fields. -/
def tryGetObjectField (fields : List (String × JValue)) (name : String) :
    Option (List (String × JValue)) :=
  match getField fields name with
  | some (.jobj fs) => some fs
  | _ => none

/-- Field getter `FJsonObject::TryGetArrayField`: strict on the field being an array; the
element types are not inspected. -/
def tryGetArrayField (fields : List (String × JValue)) (name : String) :
    Option (List JValue) :=
  match getField fields name with
  | some (.jarr xs) => some xs
  | _ => none

/-- Vector of the three location / rotator components carried through. -/
abbrev Vec3 : Type := ℚ × ℚ × ℚ

/-- Constant `FRotator::ZeroRotator` as passed to `SpawnActor` (line 256). -/
def zeroRotator : Vec3 := (0, 0, 0)

/-- Outcomes of the host-engine collaborators consulted by `HandleCommand`:
class lookup, world-context lookup, and actor spawning. -/
structure HostEnv : Type where
  findObject : String → Option Nat
  world : Option Nat
  spawnActor : Nat → Vec3 → Vec3 → Option Nat

/-- One call made by the dispatcher into a host collaborator, in order. -/
inductive HostCall : Type
  | findObject : String → HostCall
  | getWorld : HostCall
  | spawnActor : Nat → Vec3 → Vec3 → HostCall
  deriving DecidableEq

/-- Severity of a `UE_LOG` line emitted by the dispatcher. -/
inductive LogLevel : Type
  | error : LogLevel
  | warning : LogLevel
  | log : LogLevel
  deriving DecidableEq

/-- How one command message was classified by `HandleCommand`. -/
inductive CmdResult : Type
  | malformedJson : CmdResult
  | missingIntent : CmdResult
  | missingParameters : CmdResult
  | missingClass : CmdResult
  | invalidLocation : CmdResult
  | classNotFound : String → CmdResult
  | noWorldContext : CmdResult
  | spawnFailed : String → CmdResult
  | spawned : Nat → CmdResult
  | unknownIntent : String → CmdResult
  deriving DecidableEq

/-- The observable effect of one `HandleCommand` call: its classification, the
host-collaborator calls it made (in order), and the log lines it emitted. -/
structure CmdOutcome : Type where
  result : CmdResult
  calls : List HostCall
  logs : List (LogLevel × String)
  deriving DecidableEq

/-- Function `HandleCommand` (lines 192-270), as a function of the deserializer outcome
for the received payload and of the host-collaborator environment.  The source
returns `void` and reports through logs; the embedding additionally returns
the classification and the collaborator-call trace as data. -/
def HandleCommand (env : HostEnv) (doc : Option JValue) : CmdOutcome :=
  match doc with
  | some (.jobj fields) =>
    match tryGetStringField fields "intent" with
    | none => ⟨.missingIntent, [], [(.error, "Missing intent field in command.")]⟩
    | some intent =>
      if intent = "spawn_actor" then
        match tryGetObjectField fields "parameters" with
        | none => ⟨.missingParameters, [], [(.error, "Missing parameters for spawn_actor.")]⟩
        | some params =>
          match tryGetStringField params "class" with
          | none => ⟨.missingClass, [], [(.error, "Missing class parameter for spawn_actor.")]⟩
          | some className =>
            match tryGetArrayField params "location" with
            | some [a, b, c] =>
              let loc : Vec3 := (asNumber a, asNumber b, asNumber c)
              match env.findObject className with
              | none =>
                ⟨.classNotFound className, [.findObject className],
                 [(.error, "Could not find class: " ++ className)]⟩
              | some cls =>
                match env.world with
                | none =>
                  ⟨.noWorldContext, [.findObject className, .getWorld],
                   [(.error, "Could not get world context.")]⟩
                | some _ =>
                  match env.spawnActor cls loc zeroRotator with
                  | none =>
                    ⟨.spawnFailed className,
                     [.findObject className, .getWorld, .spawnActor cls loc zeroRotator],
                     [(.error, "Failed to spawn actor of class: " ++ className)]⟩
                  | some actorId =>
                    ⟨.spawned actorId,
                     [.findObject className, .getWorld, .spawnActor cls loc zeroRotator],
                     [(.log, "Successfully spawned actor.")]⟩
            | _ =>
              ⟨.invalidLocation, [],
               [(.error, "Invalid location parameter for spawn_actor. Must be an array of 3 numbers.")]⟩
      else
        ⟨.unknownIntent intent, [], [(.warning, "Unknown intent: " ++ intent)]⟩
  | _ => ⟨.malformedJson, [], [(.error, "Failed to parse JSON command.")]⟩

/-- The three mutable fields of the `UEMCPTCPServer` singleton. -/
structure ServerState : Type where
  ListenSocket : Option Nat
  ConnectedSockets : List Nat
  bIsServerRunning : Bool
  deriving DecidableEq

/-- The state established by the constructor (lines 60-64). -/
def initialState : ServerState := ⟨none, [], false⟩

/-- Outcomes of the socket subsystem consulted by `Start_Internal`: whether
the subsystem is available, and the result of building the listening socket
for a given port (`none` = builder failed, a null socket). -/
structure StartEnv : Type where
  subsystemOk : Bool
  buildSocket : Nat → Option Nat

/-- Method `Start_Internal` (lines 72-105): early-returns success when already
running; otherwise consults the subsystem, assigns the builder result to
`ListenSocket` (even a null one), and marks the server running only when the
socket was created. -/
def Start_Internal (env : StartEnv) (s : ServerState) (port : Nat) : ServerState × Bool :=
  if s.bIsServerRunning then (s, true)
  else if env.subsystemOk then
    match env.buildSocket port with
    | none => ({ s with ListenSocket := none }, false)
    | some sock => ({ s with ListenSocket := some sock, bIsServerRunning := true }, true)
  else (s, false)

/-- Method `Stop_Internal` (lines 107-130): early-returns when not running; otherwise
closes and destroys every connected socket (in list order), empties the list,
closes and destroys the listening socket when present, nulls it, and clears
the running flag.  The second component is the ordered trace of the socket
handles passed to `DestroySocket`. -/
def Stop_Internal (s : ServerState) : ServerState × List Nat :=
  if s.bIsServerRunning then
    (⟨none, [], false⟩,
     s.ConnectedSockets ++ (match s.ListenSocket with | some l => [l] | none => []))
  else (s, [])

/-- Outcomes of the transport layer during one `Tick`: whether the listening
socket reports a pending connection (conjoined with the query succeeding),
the socket `Accept` returns (`none` = null client socket), the connection
state each connected socket reports when polled, and the sequence of drained
reads on each socket, each read given as its deserializer outcome. -/
structure TickEnv : Type where
  hasPendingConnection : Bool
  acceptResult : Option Nat
  connState : Nat → Bool
  messages : Nat → List (Option JValue)
  host : HostEnv

/-- Method `HandleNewConnection` (lines 148-160) as its effect on the connection
array: an accepted client socket is appended at the end (`TArray::Add`). -/
def HandleNewConnection (env : TickEnv) (conns : List Nat) : List Nat :=
  if env.hasPendingConnection then
    match env.acceptResult with
    | some c => conns ++ [c]
    | none => conns
  else conns

/-- Result of one `HandleData` call: the updated connection array, the handles
passed to `DestroySocket` (at most one), and the outcomes of the commands
handled from the drained reads. -/
structure HandleDataResult : Type where
  conns : List Nat
  closed : List Nat
  outcomes : List CmdOutcome

/-- Method `HandleData` (lines 162-190): drains every pending read into
`HandleCommand`, then checks the connection state; a socket no longer
connected is removed from the array (`TArray::Remove` deletes every equal
element) and destroyed once. -/
def HandleData (env : TickEnv) (conns : List Nat) (c : Nat) : HandleDataResult :=
  let outcomes := (env.messages c).map (HandleCommand env.host)
  if env.connState c then ⟨conns, [], outcomes⟩
  else ⟨conns.filter (fun x => x != c), [c], outcomes⟩

/-- Cumulative trace of the receive loop of `Tick_Internal`. -/
structure RecvTrace : Type where
  conns : List Nat
  visits : List Nat
  closeds : List Nat
  outcomes : List (List CmdOutcome)

/-- The receive loop of `Tick_Internal` (lines 142-145):
`for (int32 i = ConnectedSockets.Num() - 1; i >= 0; --i) HandleData(ConnectedSockets[i]);`
modelled with the remaining index count as fuel, recording the sockets in
visit order.  The out-of-range branch recurses without effect; along the
states the source reaches (no duplicate live handles) it never fires, since
removal during the loop only ever deletes the element at the current index. -/
def recvLoop (env : TickEnv) : Nat → List Nat → RecvTrace
  | 0, conns => ⟨conns, [], [], []⟩
  | k + 1, conns =>
    match conns[k]? with
    | none => recvLoop env k conns
    | some c =>
      let r := HandleData env conns c
      let t := recvLoop env k r.conns
      ⟨t.conns, c :: t.visits, r.closed ++ t.closeds, r.outcomes :: t.outcomes⟩

/-- Observable events of one `Tick_Internal` call: whether an accept attempt
was made, the connected sockets in the order they were polled, the handles
destroyed, and the command outcomes per polled socket. -/
structure TickReport : Type where
  acceptAttempted : Bool
  visits : List Nat
  closeds : List Nat
  outcomes : List (List CmdOutcome)

/-- Method `Tick_Internal` (lines 132-146): early-returns when not running; otherwise
performs the accept step and then the receive loop over the post-accept
connection array, whose length the loop header reads once. -/
def Tick_Internal (env : TickEnv) (s : ServerState) : ServerState × TickReport :=
  if s.bIsServerRunning then
    let conns0 := HandleNewConnection env s.ConnectedSockets
    let t := recvLoop env conns0.length conns0
    ({ s with ConnectedSockets := t.conns }, ⟨true, t.visits, t.closeds, t.outcomes⟩)
  else (s, ⟨false, [], [], []⟩)

/-- States of the singleton reachable from the constructor state by any
sequence of `Start`, `Stop` and `Tick` calls, under any collaborator
behavior. -/
inductive Reachable : ServerState → Prop
  | init : Reachable initialState
  | start (env : StartEnv) (port : Nat) {s : ServerState} :
      Reachable s → Reachable (Start_Internal env s port).1
  | stop {s : ServerState} : Reachable s → Reachable (Stop_Internal s).1
  | tick (env : TickEnv) {s : ServerState} :
      Reachable s → Reachable (Tick_Internal env s).1

/-- A host environment in which class "Box" resolves, a world exists, and
spawning succeeds. -/
def demoHost : HostEnv where
  findObject := fun n => if n = "Box" then some 7 else none
  world := some 1
  spawnActor := fun _ _ _ => some 42

/-- A host environment identical to `demoHost` except that spawning fails. -/
def demoHostNoSpawn : HostEnv where
  findObject := fun n => if n = "Box" then some 7 else none
  world := some 1
  spawnActor := fun _ _ _ => none

/-- A well-formed `spawn_actor` message. -/
def spawnDoc : JValue :=
  .jobj [("intent", .jstr "spawn_actor"),
         ("parameters", .jobj [("class", .jstr "Box"),
                               ("location", .jarr [.jnum 1, .jnum 2, .jnum 3])])]

/-- A `spawn_actor` message whose location has 3 elements, the third of which
is a JSON object, hence not a number. -/
def badLocationDoc : JValue :=
  .jobj [("intent", .jstr "spawn_actor"),
         ("parameters", .jobj [("class", .jstr "Box"),
                               ("location", .jarr [.jnum 1, .jnum 2, .jobj []])])]

/-- A message whose `intent` field is a boolean, not a string. -/
def boolIntentDoc : JValue := .jobj [("intent", .jbool true)]

/-- A message carrying an unregistered intent. -/
def noopDoc : JValue := .jobj [("intent", .jstr "noop")]

/-- A running server with listening socket 9 and two connected sockets. -/
def twoConnState : ServerState := ⟨some 9, [0, 1], true⟩

/-- A tick environment with no pending connection, both sockets connected and
no data. -/
def quietEnv : TickEnv :=
  ⟨false, none, fun _ => true, fun _ => [], demoHost⟩

/-- A tick environment in which socket 1 reports disconnection. -/
def dropOneEnv : TickEnv :=
  ⟨false, none, fun c => c != 1, fun _ => [], demoHost⟩

/-- A start environment whose socket builder succeeds with handle 5. -/
def demoStartEnv : StartEnv := ⟨true, fun _ => some 5⟩

/-- Filtering out an element that does not occur leaves a list unchanged. -/
theorem filter_bne_of_not_mem {c : Nat} {l : List Nat} (h : c ∉ l) :
    l.filter (fun x => x != c) = l := by
  refine List.filter_eq_self.mpr fun x hx => ?_
  have hxc : x ≠ c := fun e => h (e ▸ hx)
  simpa [bne_iff_ne] using hxc

/-- On a duplicate-free list, `TArray::Remove` of the element at index `k`
deletes exactly that element. -/
theorem filter_bne_eq_take_drop {conns : List Nat} {k c : Nat} (hklt : k < conns.length)
    (hcg : conns[k] = c) (hnd : conns.Nodup) :
    conns.filter (fun x => x != c) = conns.take k ++ conns.drop (k + 1) := by
  have hdrop : conns.drop k = c :: conns.drop (k + 1) := by
    rw [List.drop_eq_getElem_cons hklt, hcg]
  have hsplit : conns = conns.take k ++ c :: conns.drop (k + 1) := by
    conv_lhs => rw [← List.take_append_drop k conns]
    rw [hdrop]
  have hnd2 : (conns.take k ++ c :: conns.drop (k + 1)).Nodup := hsplit ▸ hnd
  have hfront : c ∉ conns.take k := by
    intro hmem
    exact (List.disjoint_of_nodup_append hnd2) hmem (List.mem_cons_self _ _)
  have hback : c ∉ conns.drop (k + 1) :=
    (List.nodup_cons.mp (List.Nodup.of_append_right hnd2)).1
  conv_lhs => rw [hsplit]
  rw [List.filter_append, List.filter_cons]
  simp only [bne_self_eq_false, Bool.false_eq_true, if_false]
  rw [filter_bne_of_not_mem hfront, filter_bne_of_not_mem hback]

/-- Characterization of the receive loop on a duplicate-free connection array:
the loop visits the first `k` elements in reverse index order (each exactly
once), retains exactly the sockets still connected, destroys exactly the
disconnected ones, and hands each visited socket's drained reads to
`HandleCommand`.  The prefix form generalizes over the loop counter. -/
theorem recvLoop_spec (env : TickEnv) :
    ∀ (k : Nat) (conns : List Nat), k ≤ conns.length → conns.Nodup →
      recvLoop env k conns =
        ⟨(conns.take k).filter env.connState ++ conns.drop k,
         (conns.take k).reverse,
         ((conns.take k).filter (fun c => !env.connState c)).reverse,
         ((conns.take k).reverse).map
           (fun c => (env.messages c).map (HandleCommand env.host))⟩ := by
  intro k
  induction k with
  | zero => intro conns _ _; simp [recvLoop]
  | succ k ih =>
    intro conns hk hnd
    have hklt : k < conns.length := Nat.lt_of_succ_le hk
    obtain ⟨c, hc, hcg⟩ : ∃ c, conns[k]? = some c ∧ conns[k] = c :=
      ⟨conns[k], List.getElem?_eq_getElem hklt, rfl⟩
    have htake : conns.take (k + 1) = conns.take k ++ [c] := by
      rw [List.take_succ, hc]; rfl
    have hdrop : conns.drop k = c :: conns.drop (k + 1) := by
      rw [List.drop_eq_getElem_cons hklt, hcg]
    have hlen_take : (conns.take k).length = k := by
      rw [List.length_take]; omega
    rw [recvLoop, hc]
    simp only [HandleData]
    cases hcs : env.connState c with
    | true =>
      simp only [if_true]
      rw [ih conns (Nat.le_of_lt hklt) hnd, htake]
      simp only [RecvTrace.mk.injEq]
      refine ⟨?_, ?_, ?_, ?_⟩
      · rw [List.filter_append, hdrop]
        simp [hcs]
      · simp
      · rw [List.filter_append]
        simp [hcs]
      · simp
    | false =>
      simp only [Bool.false_eq_true, if_false]
      have hfilter := filter_bne_eq_take_drop hklt hcg hnd
      rw [hfilter]
      have hnd' : (conns.take k ++ conns.drop (k + 1)).Nodup := by
        have hsub : List.Sublist (conns.take k ++ conns.drop (k + 1)) conns := by
          conv_rhs => rw [← List.take_append_drop k conns]
          rw [hdrop]
          exact (List.sublist_cons_self c _).append_left _
        exact hsub.nodup hnd
      have hlen' : k ≤ (conns.take k ++ conns.drop (k + 1)).length := by
        rw [List.length_append, hlen_take]; omega
      rw [ih _ hlen' hnd']
      rw [List.take_left' hlen_take, List.drop_left' hlen_take, htake]
      simp only [RecvTrace.mk.injEq]
      refine ⟨?_, ?_, ?_, ?_⟩
      · rw [List.filter_append]
        simp [hcs]
      · simp
      · rw [List.filter_append]
        simp [hcs]
      · simp

/-- Method `Tick_Internal` neither starts or stops the server nor touches the
listening socket: only the connection array changes. -/
theorem tick_preserves_flags (env : TickEnv) (s : ServerState) :
    (Tick_Internal env s).1.bIsServerRunning = s.bIsServerRunning ∧
    (Tick_Internal env s).1.ListenSocket = s.ListenSocket := by
  unfold Tick_Internal
  cases h : s.bIsServerRunning <;> simp [h]

/-- On a running server, one `Tick` attempts an accept, visits the post-accept
connection array in reverse order, keeps exactly the still-connected sockets
and destroys exactly the disconnected ones. -/
theorem tick_run_spec (env : TickEnv) (s : ServerState)
    (hrun : s.bIsServerRunning = true)
    (hnd : (HandleNewConnection env s.ConnectedSockets).Nodup) :
    Tick_Internal env s =
      ({ s with ConnectedSockets :=
          (HandleNewConnection env s.ConnectedSockets).filter env.connState },
       ⟨true,
        (HandleNewConnection env s.ConnectedSockets).reverse,
        ((HandleNewConnection env s.ConnectedSockets).filter
          (fun c => !env.connState c)).reverse,
        ((HandleNewConnection env s.ConnectedSockets).reverse).map
          (fun c => (env.messages c).map (HandleCommand env.host))⟩) := by
  unfold Tick_Internal
  rw [hrun]
  simp only [if_true]
  rw [recvLoop_spec env _ _ (Nat.le_refl _) hnd]
  simp [List.take_length, List.drop_length]

/-- Splitting a list by a Boolean predicate preserves its length. -/
theorem length_filter_add_length_filter_not (p : Nat → Bool) (l : List Nat) :
    (l.filter p).length + (l.filter (fun x => !p x)).length = l.length := by
  induction l with
  | nil => rfl
  | cons a t ih => cases h : p a <;> simp [List.filter_cons, h] <;> omega

/-- Claim C1: the claim asserts that a `spawn_actor` command whose
`parameters.location` is a 3-element array containing a non-numeric element
makes `Dispatch` return failure without invoking `FindObject` or
`SpawnActor`.  The source checks only that the field is an array of length 3
(line 227) and then reads the elements with the total `AsNumber`, which
coerces a non-number to 0, so the command proceeds: at the concrete input
whose third location element is a JSON object, `HandleCommand` calls
`FindObject` and `SpawnActor` (at z = 0) and reports a successful spawn,
contrary to the claim and to the code's own error text demanding
"an array of 3 numbers". -/
theorem C1_non_numeric_location_reaches_host :
    (HandleCommand demoHost (some badLocationDoc)).calls =
      [.findObject "Box", .getWorld, .spawnActor 7 (1, 2, 0) zeroRotator] ∧
    (HandleCommand demoHost (some badLocationDoc)).result = .spawned 42 :=
  ⟨rfl, rfl⟩

/-- Claim C2 (counterexample): with connection array `[0, 1]`, a quiet tick
visits socket 1 first — the loop of lines 142-145 runs from the last index
down to 0, so the visit order is the reverse of the connection-list order the
claim asserts. -/
theorem C2_counterexample :
    twoConnState.ConnectedSockets = [0, 1] ∧
    (Tick_Internal quietEnv twoConnState).2.visits = [1, 0] ∧
    (Tick_Internal quietEnv twoConnState).2.visits ≠ [0, 1] :=
  ⟨rfl, rfl, by decide⟩

/-- Claim C2 (amended): for every running server state, `Tick` performs one
non-blocking accept attempt and then one receive attempt on every current
(post-accept) connection, visiting the connections in reverse connection-list
order — the last element of the connection sequence first. -/
theorem C2_tick_reverse_order (env : TickEnv) (s : ServerState)
    (hrun : s.bIsServerRunning = true)
    (hnd : (HandleNewConnection env s.ConnectedSockets).Nodup) :
    (Tick_Internal env s).2.acceptAttempted = true ∧
    (Tick_Internal env s).2.visits =
      (HandleNewConnection env s.ConnectedSockets).reverse := by
  rw [tick_run_spec env s hrun hnd]
  exact ⟨rfl, rfl⟩

/-- Claim C2 (witness): the amended order statement at a concrete running
state with two connections. -/
theorem C2_tick_reverse_order_witness :
    (Tick_Internal quietEnv twoConnState).2.acceptAttempted = true ∧
    (Tick_Internal quietEnv twoConnState).2.visits =
      (HandleNewConnection quietEnv twoConnState.ConnectedSockets).reverse :=
  C2_tick_reverse_order quietEnv twoConnState rfl (by decide)

/-- Claim C3: for a `spawn_actor` command carrying a 3-element numeric
location and a class the resolver resolves (with the host world context
available, the host-side precondition of any creation call), `HandleCommand`
performs exactly one class lookup, one world lookup and one `SpawnActor`
call, in that order, the latter with the resolved class, position
`(location[0], location[1], location[2])` and the zero rotator; and when the
host creation call fails, the outcome is the failure naming the class, logged
at error level. -/
theorem C3_spawn_invokes_factory_once (env : HostEnv)
    (fields params : List (String × JValue)) (className : String)
    (x y z : ℚ) (clsId w : Nat)
    (hintent : tryGetStringField fields "intent" = some "spawn_actor")
    (hparams : tryGetObjectField fields "parameters" = some params)
    (hclass : tryGetStringField params "class" = some className)
    (hloc : tryGetArrayField params "location" = some [.jnum x, .jnum y, .jnum z])
    (hfind : env.findObject className = some clsId)
    (hworld : env.world = some w) :
    (HandleCommand env (some (.jobj fields))).calls =
      [.findObject className, .getWorld, .spawnActor clsId (x, y, z) zeroRotator] ∧
    (env.spawnActor clsId (x, y, z) zeroRotator = none →
      (HandleCommand env (some (.jobj fields))).result = .spawnFailed className ∧
      (HandleCommand env (some (.jobj fields))).logs =
        [(.error, "Failed to spawn actor of class: " ++ className)]) := by
  cases hsp : env.spawnActor clsId (x, y, z) zeroRotator with
  | none =>
    simp only [HandleCommand, hintent, hparams, hclass, hloc, hfind, hworld,
      asNumber, tryGetNumber, Option.getD, hsp]
    exact ⟨rfl, fun _ => ⟨rfl, rfl⟩⟩
  | some actorId =>
    simp only [HandleCommand, hintent, hparams, hclass, hloc, hfind, hworld,
      asNumber, tryGetNumber, Option.getD, hsp]
    exact ⟨rfl, fun h => Option.noConfusion h⟩

/-- Claim C3 (witness): the statement at a concrete command and a host whose
spawn call fails, exercising the failure branch. -/
theorem C3_spawn_invokes_factory_once_witness :
    (HandleCommand demoHostNoSpawn (some spawnDoc)).calls =
      [.findObject "Box", .getWorld, .spawnActor 7 (1, 2, 3) zeroRotator] ∧
    (demoHostNoSpawn.spawnActor 7 (1, 2, 3) zeroRotator = none →
      (HandleCommand demoHostNoSpawn (some spawnDoc)).result = .spawnFailed "Box" ∧
      (HandleCommand demoHostNoSpawn (some spawnDoc)).logs =
        [(.error, "Failed to spawn actor of class: " ++ "Box")]) :=
  C3_spawn_invokes_factory_once demoHostNoSpawn _ _ "Box" 1 2 3 7 1
    rfl rfl rfl rfl rfl rfl

/-- Claim C4 (counterexample): a JSON object whose `intent` field is the
boolean `true` has no string-valued `intent` field, yet `HandleCommand` does
not fail with the missing-intent error: the engine getter coerces the boolean
to the string "true" and the command is dispatched as that intent. -/
theorem C4_counterexample :
    (HandleCommand demoHost (some boolIntentDoc)).result = .unknownIntent "true" ∧
    (HandleCommand demoHost (some boolIntentDoc)).result ≠ .missingIntent :=
  ⟨rfl, by decide⟩

/-- Claim C4 (amended): for every deserializer outcome, `HandleCommand` fails
with the malformed-JSON error when the payload did not deserialize to a JSON
object, and fails with the missing-intent error when the object's `intent`
field is absent or not coercible to a string (null, array or object; a number
or boolean is coerced to its string form and dispatched); in both failure
cases no host collaborator is called. -/
theorem C4_parse_failures (env : HostEnv) (doc : Option JValue) :
    ((∀ fields, doc ≠ some (.jobj fields)) →
      HandleCommand env doc =
        ⟨.malformedJson, [], [(.error, "Failed to parse JSON command.")]⟩) ∧
    (∀ fields, doc = some (.jobj fields) →
      tryGetStringField fields "intent" = none →
      HandleCommand env doc =
        ⟨.missingIntent, [], [(.error, "Missing intent field in command.")]⟩) := by
  constructor
  · intro h
    match doc with
    | none => rfl
    | some (.jobj fields) => exact absurd rfl (h fields)
    | some .jnull => rfl
    | some (.jbool b) => rfl
    | some (.jnum q) => rfl
    | some (.jstr s) => rfl
    | some (.jarr xs) => rfl
  · intro fields hdoc hintent
    subst hdoc
    simp only [HandleCommand, hintent]

/-- Claim C4 (witness): the two failure branches at concrete inputs — a
failed deserialization and an object with no `intent` field. -/
theorem C4_parse_failures_witness :
    HandleCommand demoHost none =
      ⟨.malformedJson, [], [(.error, "Failed to parse JSON command.")]⟩ ∧
    HandleCommand demoHost (some (.jobj [])) =
      ⟨.missingIntent, [], [(.error, "Missing intent field in command.")]⟩ :=
  ⟨(C4_parse_failures demoHost none).1 (fun _ h => Option.noConfusion h),
   (C4_parse_failures demoHost (some (.jobj []))).2 [] rfl rfl⟩

/-- Claim C5: a command whose intent is not the single registered intent
`spawn_actor` yields the unknown-intent failure naming that intent, logged at
warning level, with no host-collaborator call (and `HandleCommand` touches no
server state at all: its value is only a classification and traces). -/
theorem C5_unknown_intent_no_collaborator (env : HostEnv)
    (fields : List (String × JValue)) (intent : String)
    (hintent : tryGetStringField fields "intent" = some intent)
    (hunk : intent ≠ "spawn_actor") :
    HandleCommand env (some (.jobj fields)) =
      ⟨.unknownIntent intent, [], [(.warning, "Unknown intent: " ++ intent)]⟩ := by
  simp only [HandleCommand, hintent]
  rw [if_neg hunk]

/-- Claim C5 (witness): the unknown-intent statement at the concrete message
with intent "noop". -/
theorem C5_unknown_intent_no_collaborator_witness :
    HandleCommand demoHost (some noopDoc) =
      ⟨.unknownIntent "noop", [], [(.warning, "Unknown intent: " ++ "noop")]⟩ :=
  C5_unknown_intent_no_collaborator demoHost _ "noop" rfl (by decide)

/-- Claim C6: `Start` on an already-running server returns success and leaves
the state unchanged — the same listening endpoint, the same connection list.
The equation holds for every socket-subsystem environment and port, so no
bind or listen is performed: the outcome does not depend on the socket
builder at all. -/
theorem C6_start_idempotent (env : StartEnv) (s : ServerState) (port : Nat)
    (hrun : s.bIsServerRunning = true) :
    Start_Internal env s port = (s, true) := by
  unfold Start_Internal
  rw [hrun]
  simp

/-- Claim C6 (witness): starting an already-running concrete server. -/
theorem C6_start_idempotent_witness :
    Start_Internal demoStartEnv twoConnState 7000 = (twoConnState, true) :=
  C6_start_idempotent demoStartEnv twoConnState 7000 rfl

/-- Claim C7: `Stop` when not running is a no-op destroying nothing; from a
running state (with distinct handles, and the listening handle not among the
connections — true of every state the source builds), `Stop` leaves the
not-listening state with an empty connection list, a second `Stop` destroys
nothing, and across the two calls every handle is destroyed at most once. -/
theorem C7_stop_idempotent_no_double_close (s : ServerState) :
    (s.bIsServerRunning = false → Stop_Internal s = (s, [])) ∧
    (s.bIsServerRunning = true →
      (Stop_Internal s).1 = (⟨none, [], false⟩ : ServerState) ∧
      (Stop_Internal (Stop_Internal s).1).2 = [] ∧
      (s.ConnectedSockets.Nodup →
        (∀ l, s.ListenSocket = some l → l ∉ s.ConnectedSockets) →
        ∀ h : Nat,
          ((Stop_Internal s).2 ++ (Stop_Internal (Stop_Internal s).1).2).count h ≤ 1)) := by
  constructor
  · intro hrun
    unfold Stop_Internal
    rw [hrun]
    simp
  · intro hrun
    have h1 : (Stop_Internal s).1 = (⟨none, [], false⟩ : ServerState) := by
      unfold Stop_Internal
      rw [hrun]
      simp
    have h2 : (Stop_Internal (Stop_Internal s).1).2 = [] := by rw [h1]; rfl
    refine ⟨h1, h2, ?_⟩
    intro hnd hl h
    rw [h2, List.append_nil]
    have hclosed : (Stop_Internal s).2 =
        s.ConnectedSockets ++
          (match s.ListenSocket with | some l => [l] | none => []) := by
      unfold Stop_Internal
      rw [hrun]
      simp
    rw [hclosed]
    have hndall : (s.ConnectedSockets ++
        (match s.ListenSocket with | some l => [l] | none => [])).Nodup := by
      cases hls : s.ListenSocket with
      | none => simpa using hnd
      | some l =>
        refine List.nodup_append.mpr ⟨hnd, List.nodup_singleton l, ?_⟩
        intro a ha hal
        have : a = l := by simpa using hal
        exact hl l hls (this ▸ ha)
    exact List.nodup_iff_count_le_one.mp hndall h

/-- Claim C7 (witness): the double-stop statement at a concrete running state,
counting the listening handle. -/
theorem C7_stop_idempotent_no_double_close_witness :
    (Stop_Internal twoConnState).1 = (⟨none, [], false⟩ : ServerState) ∧
    (Stop_Internal (Stop_Internal twoConnState).1).2 = [] ∧
    ((Stop_Internal twoConnState).2 ++
      (Stop_Internal (Stop_Internal twoConnState).1).2).count 9 ≤ 1 := by
  have h := (C7_stop_idempotent_no_double_close twoConnState).2 rfl
  refine ⟨h.1, h.2.1, h.2.2 (by decide) ?_ 9⟩
  intro l hl
  cases hl
  decide

/-- Claim C8: a connection reporting disconnection when polled is removed
from the connection array and its handle destroyed exactly once within that
tick, and the array length drops by exactly the number of detected
disconnects (one per disconnect). -/
theorem C8_disconnect_removed_once (env : TickEnv) (s : ServerState) (c : Nat)
    (hrun : s.bIsServerRunning = true)
    (hnd : (HandleNewConnection env s.ConnectedSockets).Nodup)
    (hc : c ∈ HandleNewConnection env s.ConnectedSockets)
    (hdis : env.connState c = false) :
    c ∉ (Tick_Internal env s).1.ConnectedSockets ∧
    (Tick_Internal env s).2.closeds.count c = 1 ∧
    (Tick_Internal env s).1.ConnectedSockets.length +
      (Tick_Internal env s).2.closeds.length =
      (HandleNewConnection env s.ConnectedSockets).length := by
  rw [tick_run_spec env s hrun hnd]
  refine ⟨?_, ?_, ?_⟩
  · intro hmem
    have hms := (List.mem_filter.mp hmem).2
    rw [hdis] at hms
    exact Bool.noConfusion hms
  · rw [List.count_reverse, List.count_filter (by simp [hdis])]
    exact List.count_eq_one_of_mem hnd hc
  · rw [List.length_reverse]
    exact length_filter_add_length_filter_not _ _

/-- Claim C8 (witness): socket 1 of a concrete two-connection server reports
disconnection and is removed and destroyed exactly once. -/
theorem C8_disconnect_removed_once_witness :
    1 ∉ (Tick_Internal dropOneEnv twoConnState).1.ConnectedSockets ∧
    (Tick_Internal dropOneEnv twoConnState).2.closeds.count 1 = 1 ∧
    (Tick_Internal dropOneEnv twoConnState).1.ConnectedSockets.length +
      (Tick_Internal dropOneEnv twoConnState).2.closeds.length =
      (HandleNewConnection dropOneEnv twoConnState.ConnectedSockets).length :=
  C8_disconnect_removed_once dropOneEnv twoConnState 1 rfl (by decide) (by decide) rfl

/-- Claim C9: per-message failures do not touch the server state.  After a
tick of a running server the running flag and listening socket are unchanged,
every connection still connected at poll time remains in the connection
array whatever its messages produced, a connection is dropped only when its
transport state reported disconnection, and the resulting state is identical
under any change of the received messages and of the host collaborator
outcomes (parse errors, validation errors, resolution and spawn failures
included). -/
theorem C9_message_failures_leave_state (env : TickEnv) (s : ServerState)
    (hrun : s.bIsServerRunning = true)
    (hnd : (HandleNewConnection env s.ConnectedSockets).Nodup) :
    (Tick_Internal env s).1.bIsServerRunning = true ∧
    (Tick_Internal env s).1.ListenSocket = s.ListenSocket ∧
    (∀ c ∈ HandleNewConnection env s.ConnectedSockets, env.connState c = true →
      c ∈ (Tick_Internal env s).1.ConnectedSockets) ∧
    (∀ c ∈ HandleNewConnection env s.ConnectedSockets,
      c ∉ (Tick_Internal env s).1.ConnectedSockets → env.connState c = false) ∧
    (∀ msgs host,
      (Tick_Internal { env with messages := msgs, host := host } s).1 =
        (Tick_Internal env s).1) := by
  have hflags := tick_preserves_flags env s
  refine ⟨hflags.1.trans hrun, hflags.2, ?_, ?_, ?_⟩
  · intro c hc hconn
    rw [tick_run_spec env s hrun hnd]
    exact List.mem_filter.mpr ⟨hc, hconn⟩
  · intro c hc hnot
    cases hcs : env.connState c with
    | false => rfl
    | true =>
      have hm : c ∈ (Tick_Internal env s).1.ConnectedSockets := by
        rw [tick_run_spec env s hrun hnd]
        exact List.mem_filter.mpr ⟨hc, hcs⟩
      exact absurd hm hnot
  · intro msgs host
    rw [tick_run_spec { env with messages := msgs, host := host } s hrun hnd,
      tick_run_spec env s hrun hnd]
    rfl

/-- Claim C9 (witness): the frame statement at a concrete running server,
comparing a quiet tick with a tick that delivers a failing message (bad
location) under a host whose spawn calls fail. -/
theorem C9_message_failures_leave_state_witness :
    (Tick_Internal quietEnv twoConnState).1.bIsServerRunning = true ∧
    (Tick_Internal quietEnv twoConnState).1.ListenSocket = twoConnState.ListenSocket ∧
    0 ∈ (Tick_Internal quietEnv twoConnState).1.ConnectedSockets ∧
    (Tick_Internal { quietEnv with
        messages := fun _ => [some badLocationDoc, none],
        host := demoHostNoSpawn } twoConnState).1 =
      (Tick_Internal quietEnv twoConnState).1 := by
  have h := C9_message_failures_leave_state quietEnv twoConnState rfl (by decide)
  exact ⟨h.1, h.2.1, h.2.2.1 0 (by decide) rfl, h.2.2.2.2 _ _⟩

/-- Claim C10: in every state reachable by any sequence of `Start`, `Stop`
and `Tick` calls from the constructor state, a set running flag implies a
non-null listening socket handle, so the unconditional use of the listening
socket in the accept step of a running tick never touches a null handle. -/
theorem C10_running_implies_listen_socket :
    ∀ s : ServerState, Reachable s → s.bIsServerRunning = true →
      s.ListenSocket.isSome = true := by
  intro s hs
  induction hs with
  | init => intro h; exact Bool.noConfusion h
  | start env port hr ih =>
    rename_i t
    cases hrt : t.bIsServerRunning with
    | true =>
      simp only [Start_Internal, hrt, if_true]
      exact fun _ => ih hrt
    | false =>
      cases hsub : env.subsystemOk with
      | false =>
        simp only [Start_Internal, hrt, hsub, Bool.false_eq_true, if_false]
        exact fun h => h.elim
      | true =>
        cases hbs : env.buildSocket port with
        | none =>
          simp only [Start_Internal, hrt, hsub, hbs, Bool.false_eq_true, if_false, if_true]
          exact fun h => h.elim
        | some sock =>
          simp only [Start_Internal, hrt, hsub, hbs, Bool.false_eq_true, if_false, if_true]
          intro _
          rfl
  | stop hr ih =>
    rename_i t
    cases hrt : t.bIsServerRunning with
    | true =>
      simp only [Stop_Internal, hrt, if_true]
      intro h
      exact Bool.noConfusion h
    | false =>
      simp only [Stop_Internal, hrt, Bool.false_eq_true, if_false]
      exact fun h => h.elim
  | tick env hr ih =>
    rename_i t
    intro h
    have hflags := tick_preserves_flags env t
    rw [hflags.1] at h
    rw [hflags.2]
    exact ih h

/-- Claim C10 (witness): the invariant at the reachable state produced by a
successful `Start` from the constructor state. -/
theorem C10_running_implies_listen_socket_witness :
    ((Start_Internal demoStartEnv initialState 7000).1).ListenSocket.isSome = true :=
  C10_running_implies_listen_socket _
    (Reachable.start demoStartEnv 7000 Reachable.init) rfl

end UEMCP
